import Mathlib

/-!
# Verification of the SolVM installer (`main.go`)

A shallow embedding of the Go installer in `src/main.go`.  Pure logic
(asset-name construction, list search, prompt parsing, release selection)
is translated to Lean functions; the effectful orchestration in `main`
is modelled by explicit state passing: a `World` record fixes every
outcome the environment can produce (home-directory lookup, stdin lines,
network responses, filesystem results) and `runMain` computes the
observable result of the run (exit code, messages, network requests,
files created).
-/

namespace Solvm

/-- Go struct `Asset` (main.go lines 24-27). -/
structure Asset where
  name : String
  browserDownloadURL : String
  deriving Repr, DecidableEq

/-- Go struct `Release` (main.go lines 19-22). -/
structure Release where
  tagName : String
  assets : List Asset
  deriving Repr, DecidableEq

/-- The list-selection logic of `getLatestRelease` (main.go lines 41-45),
applied to the already-decoded release list: error `"no releases found"`
on an empty list, otherwise the first element. -/
def getLatestRelease (releases : List Release) : Except String Release :=
  match releases with
  | [] => .error "no releases found"
  | r :: _ => .ok r

/-- The distinct error outcomes of `getSystemAsset` (main.go lines 59, 68, 82). -/
inductive AssetError where
  | unsupportedOS (goos : String)
  | unsupportedArch (goarch : String)
  | noMatchingAsset (osName arch : String)
  deriving Repr, DecidableEq

/-- An `AssetError` is an unsupported-platform error when it comes from
one of the two platform switches (main.go lines 59 and 68), not from the
asset scan. -/
def AssetError.isUnsupportedPlatform : AssetError → Bool
  | .unsupportedOS _ => true
  | .unsupportedArch _ => true
  | .noMatchingAsset _ _ => false

/-- The OS switch of `getSystemAsset` (main.go lines 51-60). -/
def mapOS (goos : String) : Option String :=
  match goos with
  | "windows" => some "windows"
  | "darwin" => some "darwin"
  | "linux" => some "linux"
  | _ => none

/-- The architecture switch of `getSystemAsset` (main.go lines 62-69). -/
def mapArch (goarch : String) : Option String :=
  match goarch with
  | "amd64" => some "amd64"
  | "arm64" => some "arm64"
  | _ => none

/-- Expected asset-name construction (main.go lines 71-74):
`solvm-<os>-<arch>`, with `.exe` appended when the OS is windows. -/
def expectedAssetName (osName arch : String) : String :=
  let assetName := "solvm-" ++ osName ++ "-" ++ arch
  if osName = "windows" then assetName ++ ".exe" else assetName

/-- The scan loop of `getSystemAsset` (main.go lines 76-80): return the
first asset whose name is exactly the expected name. -/
def findMatchingAsset (assets : List Asset) (assetName : String) : Option Asset :=
  match assets with
  | [] => none
  | a :: rest => if a.name = assetName then some a else findMatchingAsset rest assetName

/-- Function `getSystemAsset` (main.go lines 48-83), with the host
platform (`runtime.GOOS`, `runtime.GOARCH`) passed explicitly. -/
def getSystemAsset (goos goarch : String) (release : Release) : Except AssetError Asset :=
  match mapOS goos with
  | none => .error (.unsupportedOS goos)
  | some osName =>
    match mapArch goarch with
    | none => .error (.unsupportedArch goarch)
    | some arch =>
      let assetName := expectedAssetName osName arch
      match findMatchingAsset release.assets assetName with
      | some a => .ok a
      | none => .error (.noMatchingAsset osName arch)

/-- Drop leading whitespace characters from a character list. -/
def dropWhitespace : List Char → List Char
  | [] => []
  | c :: cs => if c.isWhitespace then dropWhitespace cs else c :: cs

/-- Model of Go `strings.TrimSpace`: remove leading and trailing
whitespace. -/
def goTrimSpace (s : String) : String :=
  String.mk ((dropWhitespace (dropWhitespace s.data).reverse).reverse)

/-- Model of Go `strings.ToLower`: lower-case every character. -/
def goToLower (s : String) : String :=
  String.mk (s.data.map Char.toLower)

/-- Does the first character list start with the second? -/
def charsStartWith : List Char → List Char → Bool
  | _, [] => true
  | [], _ :: _ => false
  | c :: cs, p :: ps => c == p && charsStartWith cs ps

/-- Does the first character list contain the second as a contiguous
run? -/
def charsContain : List Char → List Char → Bool
  | [], sub => sub.isEmpty
  | c :: cs, sub => charsStartWith (c :: cs) sub || charsContain cs sub

/-- Model of Go `strings.Contains`. -/
def strContains (s sub : String) : Bool :=
  charsContain s.data sub.data

/-- One line of `askForConfirmation`'s loop body (main.go lines 156-162):
`some true` for an affirmative token, `some false` for a negative or
empty token, `none` when the loop re-prompts. -/
def parseResponse (response : String) : Option Bool :=
  let r := goToLower (goTrimSpace response)
  if r = "y" ∨ r = "yes" then some true
  else if r = "n" ∨ r = "no" ∨ r = "" then some false
  else none

/-- Function `askForConfirmation` (main.go lines 148-164) over an explicit stdin
stream: consumes lines until one parses; an exhausted stream models the
`ReadString` error and returns `false` (line 154).  Returns the boolean
result together with the unconsumed remainder of the stream. -/
def askForConfirmation (stdin : List String) : Bool × List String :=
  match stdin with
  | [] => (false, [])
  | line :: rest =>
    match parseResponse line with
    | some b => (b, rest)
    | none => askForConfirmation rest

/-- The releases-list endpoint queried by `getLatestRelease` (main.go line 30). -/
def solvmReleasesURL : String :=
  "https://api.github.com/repos/kleeedolinux/SolVM/releases"

/-- The possible outcomes of one `downloadFile` call (main.go lines 85-109):
the GET fails, the GET returns a non-OK status, `os.Create` fails, the
streaming copy fails mid-stream, or everything succeeds. -/
inductive DlOutcome where
  | transportErr
  | badStatus (status : String)
  | createErr
  | copyErr
  | success
  deriving Repr, DecidableEq

/-- Function `downloadFile` (main.go lines 85-109) as a function of the
environment-chosen outcome: first component is the returned error or
success, second component is whether a (possibly truncated) file exists
at the destination path afterwards.  The destination file is created
(line 96) only after the status check (lines 92-94) passes, and a
mid-copy failure (line 107) leaves the truncated file in place. -/
def downloadFile (outcome : DlOutcome) : Except String Unit × Bool :=
  match outcome with
  | .transportErr => (.error "transport error", false)
  | .badStatus s => (.error ("bad status: " ++ s), false)
  | .createErr => (.error "create failed", false)
  | .copyErr => (.error "copy error", true)
  | .success => (.ok (), true)

/-- The PATH line appended by the POSIX branch of `addToPath`
(main.go line 130). -/
def pathLine (installDir : String) : String :=
  "\nexport PATH=\"" ++ installDir ++ ":$PATH\"\n"

/-- The rc-file selection of `addToPath` (main.go lines 122-128):
`~/.zshrc` when `$SHELL` contains `zsh`, otherwise `~/.bashrc`. -/
def selectRcFile (shellEnv homeEnv : String) : String :=
  if strContains shellEnv "zsh" then homeEnv ++ "/.zshrc" else homeEnv ++ "/.bashrc"

/-- The POSIX branch of `addToPath` (main.go lines 121-142) as a function
of the environment outcomes: `rcOpenOk` is whether `os.OpenFile`
succeeds, `rcWriteOk` whether `WriteString` succeeds, `sourceCmdOk`
whether the external `source` command succeeds.  Returns whether the
function returns nil, together with the rc file's contents afterwards.
The PATH line is appended unconditionally (no check that it is already
present), and before the `source` command runs. -/
def addToPathPosix (rcOpenOk rcWriteOk sourceCmdOk : Bool)
    (rcContents installDir : String) : Bool × String :=
  if rcOpenOk = false then (false, rcContents)
  else if rcWriteOk = false then (false, rcContents)
  else (sourceCmdOk, rcContents ++ pathLine installDir)

/-- Every outcome the environment chooses for one run of `main`:
platform identifiers, home-directory lookup, the stdin line stream,
the decoded releases response, and the success of each filesystem or
subprocess step. -/
structure World where
  goos : String
  goarch : String
  homeDirResult : Except String String
  existingInstall : Bool
  stdin : List String
  releasesResp : Except String (List Release)
  mkdirOk : Bool
  download : DlOutcome
  renameOk : Bool
  chmodOk : Bool
  winCmdOk : Bool
  shellEnv : String
  homeEnv : String
  rcOpenOk : Bool
  rcWriteOk : Bool
  sourceCmdOk : Bool
  rcContents : String

/-- Function `addToPath` (main.go lines 111-146), dispatching on the OS:
the Windows branch runs a powershell command (modelled by `winCmdOk`,
rc contents untouched), the POSIX branch is `addToPathPosix`, and any
other OS falls through to `return nil` (line 145). -/
def addToPath (w : World) (installDir : String) : Bool × String :=
  match w.goos with
  | "windows" => (w.winCmdOk, w.rcContents)
  | "darwin" => addToPathPosix w.rcOpenOk w.rcWriteOk w.sourceCmdOk w.rcContents installDir
  | "linux" => addToPathPosix w.rcOpenOk w.rcWriteOk w.sourceCmdOk w.rcContents installDir
  | _ => (true, w.rcContents)

/-- The observable result of a run of `main`: the process exit code, the
status messages printed (static format-string parts, with the dynamic
interpolations appended), the URLs to which HTTP requests were issued in
order, whether a file is present at the temporary download path at the
end of the run, whether this run created the file at the final install
path, which download outcome occurred (`none` when the download step was
never reached), the result of the PATH-registration step (`none` when it
was never attempted), and the rc file contents at the end. -/
structure RunResult where
  exitCode : Nat
  messages : List String
  netRequests : List String
  tempFile : Bool
  finalFile : Bool
  downloadRan : Option DlOutcome
  pathRegResult : Option Bool
  rcContentsAfter : String
  deriving Repr, DecidableEq

/-- The two banner lines printed first (main.go lines 176-177). -/
def banner : List String := ["SolVM Installer", "==============="]

/-- Function `main` (main.go lines 175-259) over a `World`, computing the
run's observables.  The control flow mirrors the source line by line:
home-dir lookup, existing-installation check plus first prompt, release
fetch, asset match, second prompt, directory creation, download to the
temporary path, rename to the final name, chmod on non-Windows, third
prompt and soft PATH registration, completion messages. -/
def runMain (w : World) : RunResult :=
  match w.homeDirResult with
  | .error _ =>
    { exitCode := 1, messages := banner ++ ["Error getting home directory"],
      netRequests := [], tempFile := false, finalFile := false,
      downloadRan := none, pathRegResult := none, rcContentsAfter := w.rcContents }
  | .ok home =>
    let installDir := home ++ "/.solvm"
    let p1 := askForConfirmation w.stdin
    if w.existingInstall && !p1.1 then
      { exitCode := 0, messages := banner ++ ["Installation cancelled"],
        netRequests := [], tempFile := false, finalFile := false,
        downloadRan := none, pathRegResult := none, rcContentsAfter := w.rcContents }
    else
      let stdin1 := if w.existingInstall then p1.2 else w.stdin
      let net1 := [solvmReleasesURL]
      match (match w.releasesResp with
             | .error e => Except.error e
             | .ok releases => getLatestRelease releases) with
      | .error _ =>
        { exitCode := 1, messages := banner ++ ["Error getting latest release"],
          netRequests := net1, tempFile := false, finalFile := false,
          downloadRan := none, pathRegResult := none, rcContentsAfter := w.rcContents }
      | .ok release =>
        let msgsA := banner ++ ["Latest version: " ++ release.tagName]
        match getSystemAsset w.goos w.goarch release with
        | .error _ =>
          { exitCode := 1, messages := msgsA ++ ["Error finding system asset"],
            netRequests := net1, tempFile := false, finalFile := false,
            downloadRan := none, pathRegResult := none, rcContentsAfter := w.rcContents }
        | .ok asset =>
          let msgsB := msgsA ++ ["Found matching asset: " ++ asset.name]
          let p2 := askForConfirmation stdin1
          if !p2.1 then
            { exitCode := 0, messages := msgsB ++ ["Installation cancelled"],
              netRequests := net1, tempFile := false, finalFile := false,
              downloadRan := none, pathRegResult := none, rcContentsAfter := w.rcContents }
          else
            if !w.mkdirOk then
              { exitCode := 1, messages := msgsB ++ ["Error creating install directory"],
                netRequests := net1, tempFile := false, finalFile := false,
                downloadRan := none, pathRegResult := none, rcContentsAfter := w.rcContents }
            else
              let tempPath := installDir ++ "/" ++ asset.name
              let msgsC := msgsB ++ ["Downloading to: " ++ tempPath]
              let net2 := net1 ++ [asset.browserDownloadURL]
              let dl := downloadFile w.download
              match dl.1 with
              | .error _ =>
                { exitCode := 1, messages := msgsC ++ ["Error downloading file"],
                  netRequests := net2, tempFile := dl.2, finalFile := false,
                  downloadRan := some w.download, pathRegResult := none,
                  rcContentsAfter := w.rcContents }
              | .ok _ =>
                if !w.renameOk then
                  { exitCode := 1, messages := msgsC ++ ["Error renaming file"],
                    netRequests := net2, tempFile := true, finalFile := false,
                    downloadRan := some w.download, pathRegResult := none,
                    rcContentsAfter := w.rcContents }
                else
                  if (w.goos != "windows") && !w.chmodOk then
                    { exitCode := 1,
                      messages := msgsC ++ ["Error setting executable permissions"],
                      netRequests := net2, tempFile := false, finalFile := true,
                      downloadRan := some w.download, pathRegResult := none,
                      rcContentsAfter := w.rcContents }
                  else
                    let p3 := askForConfirmation p2.2
                    if !p3.1 then
                      { exitCode := 0,
                        messages := msgsC ++ ["Skipping PATH configuration",
                          "Installation complete!",
                          "Please restart your terminal to use SolVM"],
                        netRequests := net2, tempFile := false, finalFile := true,
                        downloadRan := some w.download, pathRegResult := none,
                        rcContentsAfter := w.rcContents }
                    else
                      let reg := addToPath w installDir
                      let regMsgs :=
                        if reg.1 then ["Successfully added to PATH"]
                        else ["Error adding to PATH",
                              "Please manually add to PATH: " ++ installDir]
                      { exitCode := 0,
                        messages := msgsC ++ ["Adding to PATH..."] ++ regMsgs ++
                          ["Installation complete!",
                           "Please restart your terminal to use SolVM"],
                        netRequests := net2, tempFile := false, finalFile := true,
                        downloadRan := some w.download, pathRegResult := some reg.1,
                        rcContentsAfter := reg.2 }

/-- Decidable equality for `Except`, so that concrete runs of the
embedded functions can be checked by `decide`. -/
instance instDecidableEqExcept {ε α : Type} [DecidableEq ε] [DecidableEq α] :
    DecidableEq (Except ε α) := fun a b =>
  match a, b with
  | .ok x, .ok y => if h : x = y then .isTrue (by rw [h]) else .isFalse (by simp [h])
  | .error x, .error y => if h : x = y then .isTrue (by rw [h]) else .isFalse (by simp [h])
  | .ok _, .error _ => .isFalse (by simp)
  | .error _, .ok _ => .isFalse (by simp)

/-- A release carrying exactly the linux/amd64 asset, used to instantiate
the universally quantified theorems on concrete data. -/
def sampleRelease : Release :=
  ⟨"v1.2.0", [⟨"solvm-linux-amd64", "https://dl/u"⟩]⟩

/-- A fully successful linux/amd64 environment; the worlds below are
variations of it. -/
def worldBase : World :=
  { goos := "linux", goarch := "amd64", homeDirResult := Except.ok "/home/u",
    existingInstall := false, stdin := ["y", "y", "y"],
    releasesResp := Except.ok [sampleRelease],
    mkdirOk := true, download := DlOutcome.success, renameOk := true,
    chmodOk := true, winCmdOk := true, shellEnv := "/bin/bash",
    homeEnv := "/home/u", rcOpenOk := true, rcWriteOk := true,
    sourceCmdOk := true, rcContents := "" }

/-- An environment reporting an unsupported platform (plan9/mips). -/
def worldUnsupported : World :=
  { worldBase with goos := "plan9", goarch := "mips" }

/-- An environment whose download GET fails with a transport error. -/
def worldDlFail : World :=
  { worldBase with download := DlOutcome.transportErr }

/-- An environment with an existing installation where the user answers
`n` to the first prompt. -/
def worldDecline : World :=
  { worldBase with existingInstall := true, stdin := ["n"] }

/-- An environment where everything succeeds except the external
`source` command run by the PATH registrar. -/
def worldPathFail : World :=
  { worldBase with sourceCmdOk := false }

/-- The first matching asset, when there is one, has exactly the searched
name and is the first element of the list with that name. -/
theorem findMatchingAsset_eq_some {assets : List Asset} {assetName : String} {a : Asset}
    (h : findMatchingAsset assets assetName = some a) :
    a.name = assetName ∧
      ∃ pre post, assets = pre ++ a :: post ∧ ∀ b ∈ pre, b.name ≠ assetName := by
  induction assets with
  | nil => simp [findMatchingAsset] at h
  | cons x xs ih =>
    rw [findMatchingAsset] at h
    by_cases hx : x.name = assetName
    · rw [if_pos hx] at h
      obtain rfl : x = a := by injection h
      exact ⟨hx, [], xs, rfl, by simp⟩
    · rw [if_neg hx] at h
      obtain ⟨hname, pre, post, hsplit, hpre⟩ := ih h
      refine ⟨hname, x :: pre, post, by simp [hsplit], ?_⟩
      intro b hb
      rcases List.mem_cons.mp hb with rfl | hb
      · exact hx
      · exact hpre b hb

/-- The scan returns `none` exactly when no asset in the list has the
searched name. -/
theorem findMatchingAsset_eq_none {assets : List Asset} {assetName : String} :
    findMatchingAsset assets assetName = none ↔ ∀ a ∈ assets, a.name ≠ assetName := by
  induction assets with
  | nil => simp [findMatchingAsset]
  | cons x xs ih =>
    rw [findMatchingAsset]
    by_cases hx : x.name = assetName
    · simp [hx]
    · simp [hx, ih]

set_option maxHeartbeats 1600000

/-- C1: for every supported pair (os, arch) in \{windows, darwin, linux\}
× \{amd64, arm64\}, the expected asset filename is `solvm-<os>-<arch>`,
with `.exe` appended exactly when the OS is windows, and `getSystemAsset`
scans the release's assets for exactly that name. -/
theorem claim_C1_asset_name (goos goarch : String)
    (hos : goos = "windows" ∨ goos = "darwin" ∨ goos = "linux")
    (harch : goarch = "amd64" ∨ goarch = "arm64") :
    expectedAssetName goos goarch =
      "solvm-" ++ goos ++ "-" ++ goarch ++ (if goos = "windows" then ".exe" else "") ∧
    (∀ r : Release, getSystemAsset goos goarch r =
      match findMatchingAsset r.assets (expectedAssetName goos goarch) with
      | some a => Except.ok a
      | none => Except.error (AssetError.noMatchingAsset goos goarch)) := by
  rcases hos with rfl | rfl | rfl <;> rcases harch with rfl | rfl <;>
    exact ⟨by decide, fun r => rfl⟩

/-- C1 witness: the (windows, arm64) instance, yielding
`solvm-windows-arm64.exe`. -/
theorem claim_C1_asset_name_witness :
    expectedAssetName "windows" "arm64" =
      "solvm-" ++ "windows" ++ "-" ++ "arm64" ++
        (if "windows" = "windows" then ".exe" else "") :=
  (claim_C1_asset_name "windows" "arm64" (Or.inl rfl) (Or.inr rfl)).1

/-- C2: the scan returns the first asset whose name is exactly equal to
the expected name, returns the not-found error exactly when no name is
exactly equal, and in particular rejects case-insensitive and substring
near-matches. -/
theorem claim_C2_exact_match (assets : List Asset) (expected : String) :
    (∀ a, findMatchingAsset assets expected = some a →
      a.name = expected ∧
        ∃ pre post, assets = pre ++ a :: post ∧ ∀ b ∈ pre, b.name ≠ expected) ∧
    (findMatchingAsset assets expected = none ↔ ∀ a ∈ assets, a.name ≠ expected) ∧
    (∀ r : Release, (∀ a ∈ r.assets, a.name ≠ "solvm-linux-amd64") →
      getSystemAsset "linux" "amd64" r =
        Except.error (AssetError.noMatchingAsset "linux" "amd64")) ∧
    getSystemAsset "linux" "amd64"
        ⟨"v1", [⟨"SOLVM-LINUX-AMD64", "u1"⟩, ⟨"xsolvm-linux-amd64y", "u2"⟩]⟩ =
      Except.error (AssetError.noMatchingAsset "linux" "amd64") := by
  refine ⟨fun a h => findMatchingAsset_eq_some h, findMatchingAsset_eq_none, ?_, by decide⟩
  intro r h
  have hd : getSystemAsset "linux" "amd64" r =
      (match findMatchingAsset r.assets "solvm-linux-amd64" with
       | some a => Except.ok a
       | none => Except.error (AssetError.noMatchingAsset "linux" "amd64")) := rfl
  rw [hd, findMatchingAsset_eq_none.mpr h]

/-- C2 witness: on a two-element list whose first element matches only
case-insensitively, the scan picks the second, exactly matching asset. -/
theorem claim_C2_exact_match_witness :
    (Asset.mk "solvm-linux-amd64" "u2").name = "solvm-linux-amd64" ∧
    ∃ pre post,
      [Asset.mk "SOLVM-LINUX-AMD64" "u1", Asset.mk "solvm-linux-amd64" "u2"] =
        pre ++ Asset.mk "solvm-linux-amd64" "u2" :: post ∧
      ∀ b ∈ pre, b.name ≠ "solvm-linux-amd64" :=
  (claim_C2_exact_match
      [Asset.mk "SOLVM-LINUX-AMD64" "u1", Asset.mk "solvm-linux-amd64" "u2"]
      "solvm-linux-amd64").1 _ (by decide)

/-- C3 counterexample: the line `maybe` is not an affirmative token, yet
it does not make the confirmation return false — the loop re-prompts,
and a subsequent `y` makes the call return true. -/
theorem claim_C3_decline_counterexample :
    parseResponse "maybe" = none ∧ (askForConfirmation ["maybe", "y"]).1 = true := by
  decide

/-- C3 amended: an affirmative token returns true and an explicit
negative or empty token returns false immediately, but any other line
only causes a re-prompt on the next line; the call returns false when
the input stream contains no affirmative token (in particular on a read
error at end of input). -/
theorem claim_C3_decline (stdin : List String)
    (h : ∀ line ∈ stdin, parseResponse line ≠ some true) :
    (askForConfirmation stdin).1 = false := by
  induction stdin with
  | nil => rfl
  | cons line rest ih =>
    have hl := h line (List.mem_cons_self _ _)
    rcases hp : parseResponse line with _ | b
    · simpa [askForConfirmation, hp] using ih fun l hm => h l (List.mem_cons_of_mem _ hm)
    · cases b
      · simp [askForConfirmation, hp]
      · exact absurd hp hl

/-- C3 witness: a stream of a re-prompting line followed by `NO`
returns false. -/
theorem claim_C3_decline_witness : (askForConfirmation ["maybe", "NO"]).1 = false :=
  claim_C3_decline ["maybe", "NO"] (by decide)

/-- C4: the release locator returns the first element of a non-empty
decoded release list unmodified, and the `no releases found` error on an
empty list. -/
theorem claim_C4_first_release :
    (∀ (r : Release) (rest : List Release), getLatestRelease (r :: rest) = Except.ok r) ∧
    getLatestRelease [] = Except.error "no releases found" :=
  ⟨fun _ _ => rfl, rfl⟩

/-- C5: on a host whose OS and architecture are both outside the
supported sets, the matcher returns an unsupported-platform error, and
the run never reaches the download step — the only network request a run
can have made is the release-list GET, which precedes the matcher; the
matcher itself issues none. -/
theorem claim_C5_unsupported_platform (w : World) (r : Release)
    (hos : mapOS w.goos = none) (harch : mapArch w.goarch = none) :
    (∃ e, getSystemAsset w.goos w.goarch r = Except.error e ∧
      e.isUnsupportedPlatform = true) ∧
    (runMain w).downloadRan = none ∧
    ((runMain w).netRequests = [] ∨ (runMain w).netRequests = [solvmReleasesURL]) := by
  refine ⟨⟨AssetError.unsupportedOS w.goos, ?_, rfl⟩, ?_⟩
  · simp [getSystemAsset, hos]
  · unfold runMain
    repeat' split
    all_goals try simp only []
    all_goals repeat' split
    all_goals simp_all [getSystemAsset]

/-- C5 witness: the plan9/mips environment. -/
theorem claim_C5_unsupported_platform_witness :
    (∃ e, getSystemAsset worldUnsupported.goos worldUnsupported.goarch sampleRelease =
        Except.error e ∧ e.isUnsupportedPlatform = true) ∧
    (runMain worldUnsupported).downloadRan = none ∧
    ((runMain worldUnsupported).netRequests = [] ∨
      (runMain worldUnsupported).netRequests = [solvmReleasesURL]) :=
  claim_C5_unsupported_platform worldUnsupported sampleRelease (by decide) (by decide)

/-- C6: whenever the download step runs and does not succeed, the run
exits with code 1 and the file at the final install path is never
created (the rename happens only after a successful download). -/
theorem claim_C6_download_failure (w : World) (d : DlOutcome)
    (hran : (runMain w).downloadRan = some d) (hfail : d ≠ DlOutcome.success) :
    (runMain w).exitCode = 1 ∧ (runMain w).finalFile = false := by
  revert hran
  unfold runMain
  repeat' split
  all_goals intro hran
  all_goals try simp only [] at hran ⊢
  all_goals repeat' split at hran
  all_goals try simp_all
  all_goals cases d <;> simp_all [downloadFile]

/-- C6 witness: a run whose download GET fails with a transport error
exits 1 without a final file. -/
theorem claim_C6_download_failure_witness :
    (runMain worldDlFail).exitCode = 1 ∧ (runMain worldDlFail).finalFile = false :=
  claim_C6_download_failure worldDlFail DlOutcome.transportErr (by decide) (by decide)

/-- C7: when an existing installation is detected and the first
confirmation is declined, the run exits with code 0 having issued no
network request. -/
theorem claim_C7_decline_no_network (w : World) (home : String)
    (hhome : w.homeDirResult = Except.ok home)
    (hexist : w.existingInstall = true)
    (hdecline : (askForConfirmation w.stdin).1 = false) :
    (runMain w).exitCode = 0 ∧ (runMain w).netRequests = [] := by
  unfold runMain
  rw [hhome]
  simp [hexist, hdecline]

/-- C7 witness: an existing installation and the single input line `n`. -/
theorem claim_C7_decline_no_network_witness :
    (runMain worldDecline).exitCode = 0 ∧ (runMain worldDecline).netRequests = [] :=
  claim_C7_decline_no_network worldDecline "/home/u" (by decide) (by decide) (by decide)

/-- C8: when the PATH-registration step runs and reports an error, the
failure is soft — the run still exits with code 0, prints the
diagnostic, the manual-instruction fallback, and the normal completion
messages. -/
theorem claim_C8_soft_path_failure (w : World)
    (h : (runMain w).pathRegResult = some false) :
    (runMain w).exitCode = 0 ∧
    "Error adding to PATH" ∈ (runMain w).messages ∧
    (∃ dir, ("Please manually add to PATH: " ++ dir) ∈ (runMain w).messages) ∧
    "Installation complete!" ∈ (runMain w).messages ∧
    "Please restart your terminal to use SolVM" ∈ (runMain w).messages := by
  rcases hw : w.homeDirResult with e | home
  · unfold runMain at h
    rw [hw] at h
    simp at h
  · unfold runMain at h ⊢
    rw [hw] at h ⊢
    try simp only [] at h ⊢
    repeat' split at h
    all_goals try simp_all
    all_goals by_cases hgoos : w.goos = "windows" <;> simp_all
    all_goals exact ⟨home ++ "/.solvm", by simp⟩

/-- C8 witness: a run where only the external `source` command fails
still completes with exit code 0 and all four messages. -/
theorem claim_C8_soft_path_failure_witness :
    (runMain worldPathFail).exitCode = 0 ∧
    "Error adding to PATH" ∈ (runMain worldPathFail).messages ∧
    (∃ dir, ("Please manually add to PATH: " ++ dir) ∈ (runMain worldPathFail).messages) ∧
    "Installation complete!" ∈ (runMain worldPathFail).messages ∧
    "Please restart your terminal to use SolVM" ∈ (runMain worldPathFail).messages :=
  claim_C8_soft_path_failure worldPathFail (by decide)

/-- C9: on POSIX the registrar selects `~/.zshrc` exactly when `$SHELL`
contains `zsh` and `~/.bashrc` otherwise, and a successful open/write
appends the export line unconditionally, so registering twice appends
the line twice. -/
theorem claim_C9_posix_append (shellEnv homeEnv installDir rcContents : String) :
    (selectRcFile shellEnv homeEnv =
      if strContains shellEnv "zsh" then homeEnv ++ "/.zshrc" else homeEnv ++ "/.bashrc") ∧
    selectRcFile "/usr/bin/zsh" homeEnv = homeEnv ++ "/.zshrc" ∧
    selectRcFile "/bin/bash" homeEnv = homeEnv ++ "/.bashrc" ∧
    (∀ sourceCmdOk : Bool,
      (addToPathPosix true true sourceCmdOk rcContents installDir).2 =
        rcContents ++ pathLine installDir) ∧
    (addToPathPosix true true true
        (addToPathPosix true true true rcContents installDir).2 installDir).2 =
      rcContents ++ pathLine installDir ++ pathLine installDir := by
  refine ⟨rfl, ?_, ?_, fun _ => rfl, rfl⟩
  · have hz : strContains "/usr/bin/zsh" "zsh" = true := by decide
    simp [selectRcFile, hz]
  · have hb : strContains "/bin/bash" "zsh" = false := by decide
    simp [selectRcFile, hb]

/-- C10: the export line is written before the external `source` command
runs, and that command's failure is returned — so the registrar can
report an error while the appended line nevertheless persists in the rc
file. -/
theorem claim_C10_error_line_persists (rcContents installDir : String) :
    addToPathPosix true true false rcContents installDir =
      (false, rcContents ++ pathLine installDir) ∧
    (∀ sourceCmdOk : Bool,
      (addToPathPosix true true sourceCmdOk rcContents installDir).1 = sourceCmdOk) :=
  ⟨rfl, fun _ => rfl⟩

end Solvm
